import Mathlib

/-!
# Verification of the UID-manager chat bot (`bot_uid_manager.py`)

Shallow embedding of the bot's core: the UID record store (SQLite table
`uids`), the link/UID extractor (`try_get_fb_uid_from_url`,
`try_get_fb_profile`), the auto-ingestion pipeline
(`detect_facebook_link`), the manual-save dialogue
(`cmd_save`/`handle_save_single`), the admin-gated commands
(`cmd_deleteall`, `cmd_export`, `cmd_thongke`) and the query commands
(`cmd_find`, `cmd_check`, `cmd_delete`), plus the CSV export format
produced by Python's `csv.writer`.

Side effects are made explicit:
* the SQLite table is a list of rows plus a next-rowid counter;
* `datetime.utcnow().isoformat()` is a string parameter;
* the Telegram reply / document sends are return values;
* the aiohttp call of the Graph API is a `GraphResp` parameter;
* a Python `TypeError` escaping a handler is the `PyResult.typeError`
  constructor.

A central point of the embedding: `save_uid_to_db` is itself decorated
with `@with_db`, whose wrapper calls `func(*args, conn=conn, **kwargs)`.
Both call sites (`handle_save_single`, `detect_facebook_link`) invoke it
as `save_uid_to_db(chat_id, uid, note, conn=conn)`, so the wrapper's
keyword set already contains `conn` and the call raises
`TypeError: got multiple values for keyword argument 'conn'` before any
SQL executes.  `withDbCall` models this: the boolean argument records
whether the Python call site passes an explicit `conn=` keyword.
-/

namespace BotUid

/-! ## Python string helpers -/

/-- Python `str.strip` whitespace set (ASCII part, as used by the bot). -/
def pyWs (c : Char) : Bool :=
  c == ' ' || c == '\t' || c == '\n' || c == '\r' || c == '\x0b' || c == '\x0c'

/-- Python `str.strip` on a character list: drop leading and trailing whitespace. -/
def pyStripL (l : List Char) : List Char :=
  ((l.dropWhile pyWs).reverse.dropWhile pyWs).reverse

/-! ## The record store (SQLite table `uids`) -/

/-- One row of `CREATE TABLE uids (id INTEGER PRIMARY KEY, uid TEXT NOT NULL,
note TEXT, chat_id INTEGER, saved_at TEXT)`. -/
structure UidRecord where
  id : Nat
  uid : String
  note : String
  chat_id : Int
  saved_at : String
deriving DecidableEq

/-- The `uids` table: rows plus the next rowid. -/
structure DB where
  rows : List UidRecord
  nextId : Nat
deriving DecidableEq

def dbEmpty : DB := ⟨[], 1⟩

/-- Body of `save_uid_to_db`: `INSERT INTO uids (uid, note, chat_id, saved_at)
VALUES (?, ?, ?, ?)` with `saved_at = datetime.utcnow().isoformat()`
(the timestamp is the explicit `savedAt` argument here). -/
def save_uid_to_db (chat : Int) (uid note savedAt : String) (db : DB) : DB :=
  ⟨db.rows ++ [⟨db.nextId, uid, note, chat, savedAt⟩], db.nextId + 1⟩

/-- Result of a Python handler: normal value, or a `TypeError` escaping it. -/
inductive PyResult (α : Type) where
  | ok (a : α)
  | typeError
deriving DecidableEq

/-- Calling a `@with_db`-wrapped function.  The wrapper runs
`func(*args, conn=conn, **kwargs)`; if the call site itself passed a
`conn=` keyword (`explicitConn = true`), the keyword appears twice and
Python raises a `TypeError` before the body runs. -/
def withDbCall (explicitConn : Bool) (body : DB → DB) (db : DB) : PyResult DB :=
  if explicitConn then .typeError else .ok (body db)

/-! ## UID extractor (`try_get_fb_uid_from_url`) -/

/-- Character class `[0-9A-Za-z.\-_]` of the fallback regex. -/
def classChar (c : Char) : Bool :=
  c.isDigit || ('A' ≤ c && c ≤ 'Z') || ('a' ≤ c && c ≤ 'z') ||
    c == '.' || c == '-' || c == '_'

/-- Is the first character in the capture class? (`[...]+` needs at least one.) -/
def headClass : List Char → Bool
  | [] => false
  | c :: _ => classChar c

/-- Match `(?:profile\.php\?id=)?([0-9A-Za-z.\-_]+)` at the start of `r`,
with the greedy-optional backtracking of Python `re`: first try to consume
the literal `profile.php?id=`; if the capture group cannot then match at
least one character, retry without consuming it. -/
def uidTail (r : List Char) : Option (List Char) :=
  if ("profile.php?id=".toList).isPrefixOf r && headClass (r.drop 15) then
    some ((r.drop 15).takeWhile classChar)
  else if headClass r then
    some (r.takeWhile classChar)
  else
    none

/-- `re.search r"facebook\.com/(?:profile\.php\?id=)?([0-9A-Za-z.\-_]+)"`:
scan left to right for a position where `facebook.com/` matches and the
tail pattern succeeds; return the captured group.  Fuel is the length of
the list, which bounds the number of scan steps. -/
def fbSearchAux : Nat → List Char → Option (List Char)
  | 0, _ => none
  | _, [] => none
  | Nat.succ fuel, c :: rest =>
    if ("facebook.com/".toList).isPrefixOf (c :: rest) then
      match uidTail ((c :: rest).drop 13) with
      | some u => some u
      | none => fbSearchAux fuel rest
    else fbSearchAux fuel rest

def fbSearch (l : List Char) : Option (List Char) :=
  fbSearchAux l.length l

/-- A Graph API interaction, as seen by the caller of `sess.get`:
either a response with a status and (if the body parses as a JSON object)
a field map, or a raised transport exception (connection error, timeout). -/
inductive GraphResp where
  | response (status : Nat) (body : Option (List (String × String)))
  | failure
deriving DecidableEq

/-- `dict.get` on the parsed JSON object. -/
def jsonGet (k : String) : List (String × String) → Option String
  | [] => none
  | p :: t => if p.1 = k then some p.2 else jsonGet k t

/-- The `try:` block of the Graph branch of `try_get_fb_uid_from_url`:
`Except.error` is a raised exception (caught by the handler's
`except Exception`), `Except.ok` a normal return.  On status 200 the body
is parsed (`resp.json()` raising on a malformed body) and `data.get("id")`
returned; on any other status the block falls through and the function
returns `None`. -/
def graphTryBlock (resp : GraphResp) : Except String (Option String) :=
  match resp with
  | .failure => Except.error "ClientError"
  | .response s body =>
    if s = 200 then
      match body with
      | none => Except.error "ContentTypeError"
      | some obj => Except.ok (jsonGet "id" obj)
    else Except.ok none

/-- `try_get_fb_uid_from_url(url)`.  With no `FB_ACCESS_TOKEN` the local
regex fallback runs; with a token the Graph API is consulted and every
raised exception is downgraded to `None` by the surrounding
`try/except`. -/
def try_get_fb_uid_from_url (token : Option String) (resp : GraphResp)
    (url : List Char) : Option String :=
  match token with
  | none => (fbSearch url).map List.asString
  | some _ =>
    match graphTryBlock resp with
    | Except.ok v => v
    | Except.error _ => none

/-! ## Manual-save dialogue (`cmd_save` / `handle_save_single`) -/

/-- Conversation state of the `save` dialogue: `Idle` (no conversation /
`ConversationHandler.END`) or awaiting the UID message (`SAVE_SINGLE`). -/
inductive ConvState where
  | idle
  | saveSingle
deriving DecidableEq

/-- The parse step of `handle_save_single`: the (already stripped) text is
split on the first `|` when one is present, both parts stripped; otherwise
the whole text is the uid and the note is empty. -/
def parsePipe (text : List Char) : List Char × List Char :=
  if text.contains '|' then
    (pyStripL (text.takeWhile (fun c => c != '|')),
     pyStripL ((text.dropWhile (fun c => c != '|')).tail))
  else (text, [])

/-- `handle_save_single`: strip the message, parse `uid|note`, then call
`save_uid_to_db(chat_id, uid, note, conn=conn)` — a call into a
`@with_db`-wrapped function with an explicit `conn` keyword, hence a
`TypeError`.  On the (unreachable) success path it would reply with the
saved uid and end the conversation. -/
def handle_save_single (chat : Int) (savedAt : String) (raw : String)
    (db : DB) : PyResult (DB × String × ConvState) :=
  let text := pyStripL raw.toList
  let p := parsePipe text
  match withDbCall true (save_uid_to_db chat p.1.asString p.2.asString savedAt) db with
  | .typeError => .typeError
  | .ok db2 => .ok (db2, "Đã lưu UID / Saved UID: " ++ p.1.asString, ConvState.idle)

/-! ## Link detection (`detect_facebook_link`) -/

/-- Match `https?://(?:www\.)?facebook\.com/[^\s]+` anchored at `l`;
return the matched URL text and the remainder.  Backtracking of the two
optional pieces collapses to ordered prefix tests. -/
def tryUrlAt (l : List Char) : Option (List Char × List Char) :=
  let s1 : Option (List Char) :=
    if ("https://".toList).isPrefixOf l then some (l.drop 8)
    else if ("http://".toList).isPrefixOf l then some (l.drop 7)
    else none
  match s1 with
  | none => none
  | some r1 =>
    let s2 : Option (List Char) :=
      if ("www.facebook.com/".toList).isPrefixOf r1 then some (r1.drop 17)
      else if ("facebook.com/".toList).isPrefixOf r1 then some (r1.drop 13)
      else none
    match s2 with
    | none => none
    | some r2 =>
      let body := r2.takeWhile (fun c => !(pyWs c))
      if body.isEmpty then none
      else
        let rest := r2.drop body.length
        some (l.take (l.length - rest.length), rest)

/-- `re.findall` of the URL pattern: leftmost, non-overlapping matches.
Fuel (the text length) bounds the scan. -/
def findUrlsAux : Nat → List Char → List (List Char)
  | 0, _ => []
  | _, [] => []
  | Nat.succ fuel, c :: rest =>
    match tryUrlAt (c :: rest) with
    | some (url, after) => url :: findUrlsAux fuel after
    | none => findUrlsAux fuel rest

def findUrls (l : List Char) : List (List Char) :=
  findUrlsAux l.length l

/-- The per-URL loop of `detect_facebook_link`: for each detected URL run
the extractor; on a hit call
`save_uid_to_db(chat_id, uid, "Auto from <url>", conn=conn)` — again the
explicit `conn` keyword, so the first successful extraction raises a
`TypeError` that aborts the whole handler. -/
def autoSaveLoop (extract : List Char → Option (List Char)) (chat : Int)
    (savedAt : String) :
    List (List Char) → DB → List (List Char) → PyResult (DB × List (List Char))
  | [], db, saved => .ok (db, saved)
  | url :: rest, db, saved =>
    match extract url with
    | some uid =>
      match withDbCall true
          (save_uid_to_db chat uid.asString ("Auto from " ++ url.asString) savedAt) db with
      | .typeError => .typeError
      | .ok db2 => autoSaveLoop extract chat savedAt rest db2 (saved ++ [uid])
    | none => autoSaveLoop extract chat savedAt rest db saved

/-- `detect_facebook_link`: find URLs; if none, silently do nothing;
otherwise run the auto-save loop and, if anything was saved, send a single
comma-joined confirmation. -/
def detect_facebook_link (extract : List Char → Option (List Char)) (chat : Int)
    (savedAt : String) (text : List Char) (db : DB) :
    PyResult (DB × Option String) :=
  let urls := findUrls text
  if urls.isEmpty then .ok (db, none)
  else
    match autoSaveLoop extract chat savedAt urls db [] with
    | .typeError => .typeError
    | .ok (db2, saved) =>
      .ok (db2,
        if saved.isEmpty then none
        else some ("Tự động lưu UID / Auto-saved UIDs: " ++
          String.intercalate ", " (saved.map List.asString)))

/-! ## Query commands (`cmd_find`, `cmd_check`, `cmd_delete`) -/

/-- ASCII lowering, the case folding SQLite's `LIKE` applies. -/
def asciiLower (c : Char) : Char :=
  if 'A' ≤ c && c ≤ 'Z' then Char.ofNat (c.toNat + 32) else c

/-- Contiguous-sublist test (`p` occurs inside `l`). -/
def infixCheck (p : List Char) : List Char → Bool
  | [] => p.isEmpty
  | c :: t => p.isPrefixOf (c :: t) || infixCheck p t

/-- `column LIKE '%q%'`: case-insensitive (ASCII) substring test. -/
def sqlLike (q s : String) : Bool :=
  infixCheck (q.toList.map asciiLower) (s.toList.map asciiLower)

/-- The `SELECT` of `cmd_find`:
`WHERE chat_id = ? AND (uid LIKE ? OR note LIKE ?) LIMIT 50`. -/
def cmd_find_rows (chat : Int) (q : String) (db : DB) : List UidRecord :=
  (db.rows.filter (fun r =>
    r.chat_id == chat && (sqlLike q r.uid || sqlLike q r.note))).take 50

/-- The `SELECT COUNT(*)` of `cmd_check`: `WHERE chat_id = ? AND uid = ?`. -/
def checkCount (chat : Int) (uid : String) (db : DB) : Nat :=
  db.rows.countP (fun r => r.chat_id == chat && r.uid == uid)

/-- The reply of `cmd_check`. -/
def cmd_check_reply (chat : Int) (uid : String) (db : DB) : String :=
  if checkCount chat uid db > 0 then "Đã có / Exists." else "Chưa có / Not found."

/-- `cmd_delete`: `DELETE FROM uids WHERE chat_id = ? AND uid = ?`, and the
reply chosen by `cur.rowcount > 0`. -/
def cmd_delete_run (chat : Int) (uid : String) (db : DB) : DB × String :=
  let removed := db.rows.countP (fun r => r.chat_id == chat && r.uid == uid)
  (⟨db.rows.filter (fun r => !(r.chat_id == chat && r.uid == uid)), db.nextId⟩,
   if removed > 0 then "Đã xóa / Deleted." else "Không tìm thấy UID / Not found.")

/-! ## Admin-gated commands (`cmd_deleteall`, `cmd_export`, `cmd_thongke`) -/

/-- The fixed rejection of the `admin_only` decorator. -/
def adminOnlyMsg : String :=
  "🚫 Lệnh này chỉ dành cho admin. / This command is for admins only."

/-- `DELETE FROM uids WHERE chat_id = ?` (body of `cmd_deleteall`). -/
def deleteAllDb (chat : Int) (db : DB) : DB :=
  ⟨db.rows.filter (fun r => !(r.chat_id == chat)), db.nextId⟩

/-- `cmd_deleteall` with its `admin_only` gate. -/
def cmd_deleteall_run (admins : List Int) (userId chat : Int) (db : DB) :
    DB × String :=
  if admins.contains userId then
    (deleteAllDb chat db, "Đã xoá tất cả UID trong chat / All UIDs removed.")
  else (db, adminOnlyMsg)

/-- The `SELECT uid, note, saved_at ... WHERE chat_id = ?` of `cmd_export`
(records kept whole; the projection happens in the CSV writer). -/
def exportRows (chat : Int) (db : DB) : List UidRecord :=
  db.rows.filter (fun r => r.chat_id == chat)

/-- Observable outcome of `cmd_export`: admin rejection, the "no UIDs"
reply, or the sent CSV document. -/
inductive ExportOutcome where
  | rejected (msg : String)
  | noData (msg : String)
  | file (filename : String) (content : String)
deriving DecidableEq

/-! ### CSV rendering (Python `csv.writer`, default dialect) -/

/-- QUOTE_MINIMAL: a field is quoted iff it contains the delimiter, the
quote char, or a line-terminator character. -/
def needsQuote (f : List Char) : Bool :=
  f.any (fun c => c == ',' || c == '"' || c == '\r' || c == '\n')

/-- Double every quote character. -/
def escQuote : List Char → List Char
  | [] => []
  | c :: t => if c = '"' then '"' :: '"' :: escQuote t else c :: escQuote t

def renderFieldL (f : List Char) : List Char :=
  if needsQuote f then '"' :: (escQuote f ++ ['"']) else f

/-- `writer.writerow([a, b, c])`: comma-joined fields, `\r\n` terminator. -/
def renderRow3 (a b c : List Char) : List Char :=
  renderFieldL a ++ ',' :: (renderFieldL b ++ ',' :: (renderFieldL c ++ ['\r', '\n']))

def csvRowsL : List (List Char × List Char × List Char) → List Char
  | [] => []
  | r :: rs => renderRow3 r.1 r.2.1 r.2.2 ++ csvRowsL rs

def exportTriples (rows : List UidRecord) : List (List Char × List Char × List Char) :=
  rows.map (fun r => (r.uid.toList, r.note.toList, r.saved_at.toList))

/-- The full CSV document of `cmd_export`: header row `uid,note,saved_at`
then one row per record. -/
def csvContentL (rows : List UidRecord) : List Char :=
  renderRow3 "uid".toList "note".toList "saved_at".toList ++ csvRowsL (exportTriples rows)

def csvContent (rows : List UidRecord) : String :=
  (csvContentL rows).asString

/-- `cmd_export` with its `admin_only` gate: rejection before any DB
access, the empty reply, or the named CSV file. -/
def cmd_export_run (admins : List Int) (userId chat : Int) (db : DB) :
    DB × ExportOutcome :=
  if admins.contains userId then
    let rows := exportRows chat db
    if rows.isEmpty then (db, .noData "Không có UID / No UIDs.")
    else (db, .file ("uids_" ++ toString chat ++ ".csv") (csvContent rows))
  else (db, .rejected adminOnlyMsg)

/-! ### Stats (`cmd_thongke`) -/

/-- SQL `MAX` over a TEXT column: lexicographically largest value,
`NULL` on the empty set. -/
def maxText : List String → Option String
  | [] => none
  | s :: t =>
    match maxText t with
    | none => some s
    | some m => some (if m < s then s else m)

/-- Python `x or d` for an optional string (`None` and `""` are falsy). -/
def pyOrStr (o : Option String) (d : String) : String :=
  match o with
  | none => d
  | some s => if s = "" then d else s

/-- Python `n or 0` for the integer count. -/
def pyOrNat (n : Nat) : Nat := if n = 0 then 0 else n

/-- The reply of `cmd_thongke`:
`SELECT COUNT(*) as c, MAX(saved_at) as last ... WHERE chat_id = ?`, then
`f"Tổng UID / Total UIDs: {c or 0}\nLưu gần nhất / Last saved: {last or '-'}"`. -/
def cmd_thongke_reply (chat : Int) (db : DB) : String :=
  let inScope := db.rows.filter (fun r => r.chat_id == chat)
  "Tổng UID / Total UIDs: " ++ toString (pyOrNat inScope.length) ++
    "\nLưu gần nhất / Last saved: " ++ pyOrStr (maxText (inScope.map UidRecord.saved_at)) "-"

/-- `cmd_thongke` with its `admin_only` gate. -/
def cmd_thongke_run (admins : List Int) (userId chat : Int) (db : DB) : String :=
  if admins.contains userId then cmd_thongke_reply chat db else adminOnlyMsg

/-! ### CSV parsing (for the export round trip)

The repository only writes CSV; the reader below is the standard CSV
grammar the written files conform to (RFC-4180 style: `\r\n` row
terminators, `"`-quoting with doubled quotes). -/

inductive CsvMode where
  | startF
  | unq
  | quo
  | quoQ
  | cr
  | err
deriving DecidableEq

structure CsvSt where
  mode : CsvMode
  field : List Char
  row : List (List Char)
  rows : List (List (List Char))
deriving DecidableEq

def csvStep (st : CsvSt) (c : Char) : CsvSt :=
  match st.mode with
  | .err => st
  | .startF =>
    if c = '"' then { st with mode := .quo }
    else if c = ',' then { st with row := st.row ++ [st.field], field := [] }
    else if c = '\r' then { st with mode := .cr, row := st.row ++ [st.field], field := [] }
    else if c = '\n' then { st with mode := .err }
    else { st with mode := .unq, field := st.field ++ [c] }
  | .unq =>
    if c = ',' then { st with mode := .startF, row := st.row ++ [st.field], field := [] }
    else if c = '\r' then { st with mode := .cr, row := st.row ++ [st.field], field := [] }
    else if c = '"' || c = '\n' then { st with mode := .err }
    else { st with field := st.field ++ [c] }
  | .quo =>
    if c = '"' then { st with mode := .quoQ } else { st with field := st.field ++ [c] }
  | .quoQ =>
    if c = '"' then { st with mode := .quo, field := st.field ++ ['"'] }
    else if c = ',' then { st with mode := .startF, row := st.row ++ [st.field], field := [] }
    else if c = '\r' then { st with mode := .cr, row := st.row ++ [st.field], field := [] }
    else { st with mode := .err }
  | .cr =>
    if c = '\n' then { st with mode := .startF, row := [], rows := st.rows ++ [st.row] }
    else { st with mode := .err }

def csvInit : CsvSt := ⟨CsvMode.startF, [], [], []⟩

def csvRun (l : List Char) : CsvSt := l.foldl csvStep csvInit

/-- Parse a CSV document into its rows; `none` on malformed input
(unterminated quote or row, stray control characters). -/
def parseCsvL (l : List Char) : Option (List (List (List Char))) :=
  let st := csvRun l
  if st.mode = CsvMode.startF ∧ st.field = [] ∧ st.row = [] then some st.rows else none

def parseCsv (s : String) : Option (List (List String)) :=
  (parseCsvL s.toList).map (fun rs => rs.map (fun r => r.map List.asString))

/-! ## Helper lemmas -/

theorem asString_toList (s : String) : s.toList.asString = s := rfl

theorem csvStep_startF (f : List Char) (row : List (List Char))
    (rows : List (List (List Char))) (c : Char) :
    csvStep ⟨CsvMode.startF, f, row, rows⟩ c =
      if c = '"' then ⟨CsvMode.quo, f, row, rows⟩
      else if c = ',' then ⟨CsvMode.startF, [], row ++ [f], rows⟩
      else if c = '\r' then ⟨CsvMode.cr, [], row ++ [f], rows⟩
      else if c = '\n' then ⟨CsvMode.err, f, row, rows⟩
      else ⟨CsvMode.unq, f ++ [c], row, rows⟩ := rfl

theorem csvStep_unq (f : List Char) (row : List (List Char))
    (rows : List (List (List Char))) (c : Char) :
    csvStep ⟨CsvMode.unq, f, row, rows⟩ c =
      if c = ',' then ⟨CsvMode.startF, [], row ++ [f], rows⟩
      else if c = '\r' then ⟨CsvMode.cr, [], row ++ [f], rows⟩
      else if c = '"' || c = '\n' then ⟨CsvMode.err, f, row, rows⟩
      else ⟨CsvMode.unq, f ++ [c], row, rows⟩ := rfl

theorem csvStep_quo (f : List Char) (row : List (List Char))
    (rows : List (List (List Char))) (c : Char) :
    csvStep ⟨CsvMode.quo, f, row, rows⟩ c =
      if c = '"' then ⟨CsvMode.quoQ, f, row, rows⟩
      else ⟨CsvMode.quo, f ++ [c], row, rows⟩ := rfl

theorem csvStep_quoQ (f : List Char) (row : List (List Char))
    (rows : List (List (List Char))) (c : Char) :
    csvStep ⟨CsvMode.quoQ, f, row, rows⟩ c =
      if c = '"' then ⟨CsvMode.quo, f ++ ['"'], row, rows⟩
      else if c = ',' then ⟨CsvMode.startF, [], row ++ [f], rows⟩
      else if c = '\r' then ⟨CsvMode.cr, [], row ++ [f], rows⟩
      else ⟨CsvMode.err, f, row, rows⟩ := rfl

theorem csvStep_cr (f : List Char) (row : List (List Char))
    (rows : List (List (List Char))) (c : Char) :
    csvStep ⟨CsvMode.cr, f, row, rows⟩ c =
      if c = '\n' then ⟨CsvMode.startF, f, [], rows ++ [row]⟩
      else ⟨CsvMode.err, f, row, rows⟩ := rfl

/-- Processing the quote-escaped body of a field in quoted mode appends it
to the field accumulator. -/
theorem csvRun_escQuote (f : List Char) : ∀ (rest acc : List Char)
    (row : List (List Char)) (rows : List (List (List Char))),
    List.foldl csvStep ⟨CsvMode.quo, acc, row, rows⟩ (escQuote f ++ rest) =
      List.foldl csvStep ⟨CsvMode.quo, acc ++ f, row, rows⟩ rest := by
  induction f with
  | nil => intro rest acc row rows; simp [escQuote]
  | cons c t ih =>
    intro rest acc row rows
    by_cases hc : c = '"'
    · subst hc
      simp only [escQuote, List.cons_append, List.foldl_cons, csvStep_quo, csvStep_quoQ,
        if_true, reduceIte]
      rw [ih]
      simp
    · simp only [escQuote, if_neg hc, List.cons_append, List.foldl_cons, csvStep_quo]
      rw [ih]
      simp

/-- Processing a clean (quote-free, delimiter-free) field body in unquoted
mode appends it to the field accumulator. -/
theorem csvRun_unq (f : List Char)
    (h : ∀ c ∈ f, c ≠ ',' ∧ c ≠ '"' ∧ c ≠ '\r' ∧ c ≠ '\n') :
    ∀ (rest acc : List Char) (row : List (List Char))
      (rows : List (List (List Char))),
    List.foldl csvStep ⟨CsvMode.unq, acc, row, rows⟩ (f ++ rest) =
      List.foldl csvStep ⟨CsvMode.unq, acc ++ f, row, rows⟩ rest := by
  induction f with
  | nil => intro rest acc row rows; simp
  | cons c t ih =>
    intro rest acc row rows
    have hc := h c (List.mem_cons_self c t)
    simp only [List.cons_append, List.foldl_cons, csvStep_unq, if_neg hc.1,
      if_neg hc.2.2.1, if_neg (show ¬(c = '"' || c = '\n') = true by
        simp [hc.2.1, hc.2.2.2])]
    rw [ih (fun x hx => h x (List.mem_cons_of_mem c hx))]
    simp

/-- `needsQuote f = false` means every character of `f` is clean. -/
theorem needsQuote_false_clean (f : List Char) (h : needsQuote f = false) :
    ∀ c ∈ f, c ≠ ',' ∧ c ≠ '"' ∧ c ≠ '\r' ∧ c ≠ '\n' := by
  intro c hc
  have := List.any_eq_false.mp h c hc
  simp only [Bool.or_eq_true, beq_iff_eq] at this
  push_neg at this
  exact ⟨this.1.1.1, this.1.1.2, this.1.2, this.2⟩

/-- A rendered field followed by a comma: the field is flushed into the
current row. -/
theorem csvRun_field_comma (f : List Char) (rest : List Char)
    (row : List (List Char)) (rows : List (List (List Char))) :
    List.foldl csvStep ⟨CsvMode.startF, [], row, rows⟩ (renderFieldL f ++ ',' :: rest) =
      List.foldl csvStep ⟨CsvMode.startF, [], row ++ [f], rows⟩ rest := by
  by_cases hq : needsQuote f = true
  · simp only [renderFieldL, if_pos hq, List.cons_append, List.singleton_append,
      List.append_assoc, List.nil_append, List.foldl_cons, csvStep_startF, reduceIte]
    rw [csvRun_escQuote]
    simp only [List.nil_append, List.foldl_cons, csvStep_quo, csvStep_quoQ, reduceIte]
    rw [if_neg (by decide : ¬(',' : Char) = '"')]
  · have hclean := needsQuote_false_clean f (by simpa using hq)
    simp only [renderFieldL, if_neg hq]
    cases f with
    | nil =>
      simp only [List.nil_append, List.foldl_cons, csvStep_startF, reduceIte]
      rw [if_neg (by decide : ¬(',' : Char) = '"')]
    | cons c t =>
      have hc := hclean c (List.mem_cons_self c t)
      simp only [List.cons_append, List.foldl_cons, csvStep_startF, if_neg hc.2.1,
        if_neg hc.1, if_neg hc.2.2.1, if_neg hc.2.2.2, List.nil_append]
      rw [csvRun_unq t (fun x hx => hclean x (List.mem_cons_of_mem c hx))]
      simp only [List.foldl_cons, csvStep_unq, reduceIte, List.singleton_append]

/-- A rendered field followed by `\r\n`: the field is flushed and the row
is committed. -/
theorem csvRun_field_crlf (f : List Char) (rest : List Char)
    (row : List (List Char)) (rows : List (List (List Char))) :
    List.foldl csvStep ⟨CsvMode.startF, [], row, rows⟩
        (renderFieldL f ++ '\r' :: '\n' :: rest) =
      List.foldl csvStep ⟨CsvMode.startF, [], [], rows ++ [row ++ [f]]⟩ rest := by
  by_cases hq : needsQuote f = true
  · simp only [renderFieldL, if_pos hq, List.cons_append, List.singleton_append,
      List.append_assoc, List.nil_append, List.foldl_cons, csvStep_startF, reduceIte]
    rw [csvRun_escQuote]
    simp only [List.nil_append, List.foldl_cons, csvStep_quo, csvStep_quoQ,
      csvStep_cr, reduceIte]
    rw [if_neg (by decide : ¬('\x0d' : Char) = '"'),
      if_neg (by decide : ¬('\x0d' : Char) = ',')]
    simp only [csvStep_cr, reduceIte]
  · have hclean := needsQuote_false_clean f (by simpa using hq)
    simp only [renderFieldL, if_neg hq]
    cases f with
    | nil =>
      simp only [List.nil_append, List.foldl_cons, csvStep_startF, csvStep_cr, reduceIte]
      rw [if_neg (by decide : ¬('\x0d' : Char) = '"'),
        if_neg (by decide : ¬('\x0d' : Char) = ',')]
      simp only [csvStep_cr, reduceIte]
    | cons c t =>
      have hc := hclean c (List.mem_cons_self c t)
      simp only [List.cons_append, List.foldl_cons, csvStep_startF, if_neg hc.2.1,
        if_neg hc.1, if_neg hc.2.2.1, if_neg hc.2.2.2, List.nil_append]
      rw [csvRun_unq t (fun x hx => hclean x (List.mem_cons_of_mem c hx))]
      simp only [List.foldl_cons, csvStep_unq, csvStep_cr, reduceIte,
        List.singleton_append]
      rw [if_neg (by decide : ¬('\x0d' : Char) = ',')]
      simp only [csvStep_cr, reduceIte]

/-- Processing one rendered row from a fresh-row state commits exactly
that row. -/
theorem csvRun_row3 (a b c : List Char) (rest : List Char)
    (rows : List (List (List Char))) :
    List.foldl csvStep ⟨CsvMode.startF, [], [], rows⟩ (renderRow3 a b c ++ rest) =
      List.foldl csvStep ⟨CsvMode.startF, [], [], rows ++ [[a, b, c]]⟩ rest := by
  simp only [renderRow3, List.append_assoc, List.cons_append]
  rw [csvRun_field_comma, csvRun_field_comma, csvRun_field_crlf]
  simp

/-- Processing a rendered list of rows commits them all. -/
theorem csvRun_rows (trips : List (List Char × List Char × List Char)) :
    ∀ (rows : List (List (List Char))),
    List.foldl csvStep ⟨CsvMode.startF, [], [], rows⟩ (csvRowsL trips) =
      ⟨CsvMode.startF, [], [], rows ++ trips.map (fun t => [t.1, t.2.1, t.2.2])⟩ := by
  induction trips with
  | nil => intro rows; simp [csvRowsL]
  | cons r rs ih =>
    intro rows
    simp only [csvRowsL]
    rw [csvRun_row3, ih]
    simp

/-- The full DFA run over a rendered export document. -/
theorem csvRun_content (rows : List UidRecord) :
    csvRun (csvContentL rows) =
      ⟨CsvMode.startF, [], [],
        ["uid".toList, "note".toList, "saved_at".toList] ::
          (exportTriples rows).map (fun t => [t.1, t.2.1, t.2.2])⟩ := by
  unfold csvRun csvContentL csvInit
  rw [csvRun_row3, csvRun_rows]
  simp

/-! ## Claims -/

/-- C10: for every set of records stored in a chat scope, exporting them
(header row `uid,note,saved_at` followed by one CSV row per record with
standard field quoting) and re-parsing the delimited output reproduces
exactly the `(uid, note, saved_at)` tuples originally stored (here even in
order, which implies equality as sets). -/
theorem C10_export_roundtrip (chat : Int) (db : DB) :
    parseCsv (csvContent (exportRows chat db)) =
      some (["uid", "note", "saved_at"] ::
        (exportRows chat db).map (fun r => [r.uid, r.note, r.saved_at])) := by
  unfold parseCsv csvContent parseCsvL
  rw [show ((csvContentL (exportRows chat db)).asString).toList =
        csvContentL (exportRows chat db) from rfl]
  rw [csvRun_content]
  simp [exportTriples, List.map_map, Function.comp, asString_toList]
  exact ⟨⟨by decide, by decide, by decide⟩, fun a _ => ⟨rfl, rfl, rfl⟩⟩

/-- C5 counterexample: the claim asserts that
`extract_uid("https://site.example/profile.php?id=12345")` with no resolver
configured returns `"12345"`, but the fallback regex of
`try_get_fb_uid_from_url` requires the literal substring `facebook.com/`
somewhere in the URL; this input contains no such substring, so the
function returns `None`. -/
theorem C5_fallback_counterexample :
    try_get_fb_uid_from_url none GraphResp.failure
        "https://site.example/profile.php?id=12345".toList = none ∧
    (none : Option String) ≠ some "12345" := by
  constructor
  · decide
  · decide

/-- C5 amended: given the link `https://facebook.com/profile.php?id=12345`
(a URL containing the `facebook.com/` substring the fallback pattern
searches for) and no external resolver configured,
`try_get_fb_uid_from_url` returns `"12345"` via local pattern matching. -/
theorem C5_fallback_facebook_domain :
    try_get_fb_uid_from_url none GraphResp.failure
        "https://facebook.com/profile.php?id=12345".toList = some "12345" := by
  decide

/-- C6: with an external resolver configured (a token present), the
extraction call returns the `id` field of the response body on HTTP 200;
on transport failure, non-200 status, or a malformed body it returns
`none`; and every exception raised inside the `try` block
(`graphTryBlock = .error`) is absorbed to `none` rather than propagated. -/
theorem C6_resolver_contract (tk : String) (url : List Char) (resp : GraphResp) :
    (∀ obj, resp = GraphResp.response 200 (some obj) →
      try_get_fb_uid_from_url (some tk) resp url = jsonGet "id" obj) ∧
    (resp = GraphResp.failure → try_get_fb_uid_from_url (some tk) resp url = none) ∧
    (∀ s body, resp = GraphResp.response s body → s ≠ 200 →
      try_get_fb_uid_from_url (some tk) resp url = none) ∧
    (∀ s, resp = GraphResp.response s none →
      try_get_fb_uid_from_url (some tk) resp url = none) ∧
    (∀ e, graphTryBlock resp = Except.error e →
      try_get_fb_uid_from_url (some tk) resp url = none) := by
  refine ⟨?_, ?_, ?_, ?_, ?_⟩
  · intro obj h
    subst h
    simp [try_get_fb_uid_from_url, graphTryBlock]
  · intro h
    subst h
    simp [try_get_fb_uid_from_url, graphTryBlock]
  · intro s body h hs
    subst h
    simp [try_get_fb_uid_from_url, graphTryBlock, hs]
  · intro s h
    subst h
    rcases eq_or_ne s 200 with h200 | h200 <;>
      simp [try_get_fb_uid_from_url, graphTryBlock, h200]
  · intro e h
    simp [try_get_fb_uid_from_url, h]

/-- Witness for C6 at concrete responses. -/
theorem C6_resolver_contract_witness :
    try_get_fb_uid_from_url (some "TOKEN")
        (GraphResp.response 200 (some [("id", "42")])) "u".toList =
      jsonGet "id" [("id", "42")] ∧
    jsonGet "id" [("id", "42")] = some "42" ∧
    try_get_fb_uid_from_url (some "TOKEN") GraphResp.failure "u".toList = none ∧
    try_get_fb_uid_from_url (some "TOKEN") (GraphResp.response 500 none) "u".toList =
      none :=
  ⟨(C6_resolver_contract "TOKEN" "u".toList _).1 [("id", "42")] rfl,
   rfl,
   (C6_resolver_contract "TOKEN" "u".toList _).2.1 rfl,
   (C6_resolver_contract "TOKEN" "u".toList _).2.2.2.1 500 rfl⟩

/-- C7: a non-allow-listed actor invoking a privileged command
(`deleteall`, `export`, `thongke`) gets the fixed `admin_only` rejection,
the record store is unchanged, no file is produced (the outcome is
`rejected`, not `file`), and `export_all` is never reached (the gated body
is skipped, as the equalities hold for every store state). -/
theorem C7_admin_gate (admins : List Int) (userId chat : Int) (db : DB)
    (h : admins.contains userId = false) :
    cmd_export_run admins userId chat db = (db, ExportOutcome.rejected adminOnlyMsg) ∧
    cmd_deleteall_run admins userId chat db = (db, adminOnlyMsg) ∧
    cmd_thongke_run admins userId chat db = adminOnlyMsg := by
  simp only [cmd_export_run, cmd_deleteall_run, cmd_thongke_run, h]
  simp

/-- Witness for C7: user 30 is not in the allow-list `[10, 20]`. -/
theorem C7_admin_gate_witness :
    cmd_export_run [10, 20] 30 1 ⟨[⟨1, "u", "n", 1, "t"⟩], 2⟩ =
      (⟨[⟨1, "u", "n", 1, "t"⟩], 2⟩, ExportOutcome.rejected adminOnlyMsg) ∧
    cmd_deleteall_run [10, 20] 30 1 ⟨[⟨1, "u", "n", 1, "t"⟩], 2⟩ =
      (⟨[⟨1, "u", "n", 1, "t"⟩], 2⟩, adminOnlyMsg) ∧
    cmd_thongke_run [10, 20] 30 1 ⟨[⟨1, "u", "n", 1, "t"⟩], 2⟩ = adminOnlyMsg :=
  C7_admin_gate [10, 20] 30 1 ⟨[⟨1, "u", "n", 1, "t"⟩], 2⟩ (by decide)

/-- C1 (code bug): the claim describes auto-ingestion inserting extracted
UIDs and confirming them, but on a message containing an extractable link
the handler raises: `detect_facebook_link` calls
`save_uid_to_db(chat_id, uid, note, conn=conn)` while `save_uid_to_db` is
itself `@with_db`-wrapped, so the duplicated `conn` keyword raises a
`TypeError` — nothing is inserted and no reply is sent. -/
theorem C1_autoingest_raises :
    detect_facebook_link fbSearch 5 "2025-01-01T00:00:00"
        "check https://facebook.com/profile.php?id=777 ok".toList dbEmpty =
      PyResult.typeError := by
  decide

/-- C2 (code bug): the claim describes the manual-save message being
parsed, inserted, and the conversation returning to Idle, but
`handle_save_single` calls `save_uid_to_db(..., conn=conn)` into the
`@with_db`-wrapped function, so every manual-save message raises a
`TypeError`: no record is inserted, no confirmation is sent, and the
conversation never reaches `ConversationHandler.END`. -/
theorem C2_manual_save_raises :
    handle_save_single 5 "2025-01-01T00:00:00" "12345|friend" dbEmpty =
      PyResult.typeError := by
  decide

/-- The fallback regex capture `[0-9A-Za-z.\-_]+` is never empty. -/
theorem uidTail_ne_nil (r u : List Char) (h : uidTail r = some u) : u ≠ [] := by
  unfold uidTail at h
  by_cases h1 : (("profile.php?id=".toList).isPrefixOf r && headClass (r.drop 15)) = true
  · rw [if_pos h1] at h
    have h2 := (Bool.and_eq_true _ _).mp h1 |>.2
    cases hdrop : r.drop 15 with
    | nil => rw [hdrop] at h2; simp [headClass] at h2
    | cons c t =>
      rw [hdrop] at h h2
      simp only [headClass] at h2
      rw [List.takeWhile_cons, if_pos h2] at h
      have := Option.some.inj h
      subst this
      simp
  · rw [if_neg h1] at h
    by_cases h2 : headClass r = true
    · rw [if_pos h2] at h
      cases r with
      | nil => simp [headClass] at h2
      | cons c t =>
        simp only [headClass] at h2
        rw [List.takeWhile_cons, if_pos h2] at h
        have := Option.some.inj h
        subst this
        simp
    · rw [if_neg h2] at h
      exact absurd h (by simp)

theorem fbSearchAux_ne_nil :
    ∀ (fuel : Nat) (l u : List Char), fbSearchAux fuel l = some u → u ≠ [] := by
  intro fuel
  induction fuel with
  | zero => intro l u h; simp [fbSearchAux] at h
  | succ n ih =>
    intro l u h
    cases l with
    | nil => simp [fbSearchAux] at h
    | cons c rest =>
      by_cases hp : (("facebook.com/".toList).isPrefixOf (c :: rest)) = true
      · rw [fbSearchAux, if_pos hp] at h
        cases hu : uidTail ((c :: rest).drop 13) with
        | some u2 =>
          rw [hu] at h
          have := Option.some.inj h
          subst this
          exact uidTail_ne_nil _ _ hu
        | none =>
          rw [hu] at h
          exact ih rest u h
      · rw [fbSearchAux, if_neg hp] at h
        exact ih rest u h

theorem fbSearch_ne_nil (l u : List Char) (h : fbSearch l = some u) : u ≠ [] :=
  fbSearchAux_ne_nil l.length l u h

/-- C8 counterexample: the store's insert (`save_uid_to_db`) performs no
validation at all — invoked with an empty uid (as the manual-save parse
produces for an input like `"|note"`) it stores a record whose `uid` is
the empty string, so "no stored record ever has an empty uid" fails. -/
theorem C8_insert_empty_uid :
    ∃ r ∈ (save_uid_to_db 5 "" "manual note" "2025-01-01T00:00:00" dbEmpty).rows,
      r.uid = "" := by
  decide

/-- C8 amended: the store's insert stores the caller-provided uid verbatim
(no non-emptiness constraint is enforced); UIDs produced by the local
link-pattern extractor are always non-empty, but the manual-save parse can
yield an empty uid (e.g. from the input `"|hello"`). -/
theorem C8_insert_verbatim :
    (∀ (chat : Int) (uid note savedAt : String) (db : DB),
      (save_uid_to_db chat uid note savedAt db).rows =
        db.rows ++ [⟨db.nextId, uid, note, chat, savedAt⟩]) ∧
    (∀ (l u : List Char), fbSearch l = some u → u ≠ []) ∧
    (parsePipe (pyStripL "|hello".toList)).1 = [] :=
  ⟨fun _ _ _ _ _ => rfl, fun l u h => fbSearch_ne_nil l u h, by decide⟩

/-- Witness for C8: the extractor hypothesis discharged at a concrete
link, and a concrete verbatim insert. -/
theorem C8_insert_verbatim_witness :
    ("12345".toList ≠ ([] : List Char)) ∧
    (save_uid_to_db 3 "abc" "n" "t" dbEmpty).rows = [⟨1, "abc", "n", 3, "t"⟩] := by
  constructor
  · exact C8_insert_verbatim.2.1
      "https://facebook.com/profile.php?id=12345".toList "12345".toList (by decide)
  · rw [C8_insert_verbatim.1 3 "abc" "n" "t" dbEmpty]
    decide

/-- `maxText` (SQL `MAX` over TEXT) returns an element of the list. -/
theorem maxText_mem : ∀ (l : List String) (m : String), maxText l = some m → m ∈ l := by
  intro l
  induction l with
  | nil => intro m h; simp [maxText] at h
  | cons s t ih =>
    intro m h
    simp only [maxText] at h
    cases hm : maxText t with
    | none =>
      rw [hm] at h
      have := Option.some.inj h
      subst this
      exact List.mem_cons_self s t
    | some m2 =>
      rw [hm] at h
      have := Option.some.inj h
      by_cases hlt : m2 < s
      · rw [if_pos hlt] at this
        subst this
        exact List.mem_cons_self s t
      · rw [if_neg hlt] at this
        subst this
        exact List.mem_cons_of_mem s (ih _ hm)

/-- C9 counterexample: with one record whose `saved_at` is
`2025-01-02T03:04:05.678901`, the stats reply of `cmd_thongke` shows the
full timestamp; the claim's "truncated to second precision" value
(`2025-01-02T03:04:05`, the `[:19]` cut used by `cmd_find`, not by
`cmd_thongke`) does not match the reply. -/
theorem C9_stats_counterexample :
    cmd_thongke_reply 5 ⟨[⟨1, "777", "", 5, "2025-01-02T03:04:05.678901"⟩], 2⟩ =
      "Tổng UID / Total UIDs: 1\nLưu gần nhất / Last saved: 2025-01-02T03:04:05.678901" ∧
    cmd_thongke_reply 5 ⟨[⟨1, "777", "", 5, "2025-01-02T03:04:05.678901"⟩], 2⟩ ≠
      "Tổng UID / Total UIDs: 1\nLưu gần nhất / Last saved: 2025-01-02T03:04:05" := by
  constructor
  · decide
  · decide

/-- C9 amended: the stats reply for a chat scope consists of two lines —
the total record count, and the full (untruncated) last-saved timestamp,
or the placeholder `-` when no records exist in that chat scope (assuming
stored timestamps are non-empty, as `isoformat()` always is). -/
theorem C9_stats_untruncated (chat : Int) (db : DB)
    (h : ∀ r ∈ db.rows, r.saved_at ≠ "") :
    cmd_thongke_reply chat db =
      "Tổng UID / Total UIDs: " ++
        toString ((db.rows.filter (fun r => r.chat_id == chat)).length) ++
        "\nLưu gần nhất / Last saved: " ++
        (match maxText ((db.rows.filter (fun r => r.chat_id == chat)).map
            UidRecord.saved_at) with
         | some s => s
         | none => "-") := by
  have hc : pyOrNat ((db.rows.filter (fun r => r.chat_id == chat)).length) =
      (db.rows.filter (fun r => r.chat_id == chat)).length := by
    unfold pyOrNat
    split
    · omega
    · rfl
  have hl : pyOrStr (maxText ((db.rows.filter (fun r => r.chat_id == chat)).map
      UidRecord.saved_at)) "-" =
      (match maxText ((db.rows.filter (fun r => r.chat_id == chat)).map
          UidRecord.saved_at) with
       | some s => s
       | none => "-") := by
    cases hm : maxText ((db.rows.filter (fun r => r.chat_id == chat)).map
        UidRecord.saved_at) with
    | none => rfl
    | some s =>
      have hsmem := maxText_mem _ s hm
      obtain ⟨r, hrmem, hrs⟩ := List.mem_map.mp hsmem
      have hrrows : r ∈ db.rows := List.mem_of_mem_filter hrmem
      have hne : s ≠ "" := hrs ▸ h r hrrows
      simp [pyOrStr, hne]
  simp only [cmd_thongke_reply]
  rw [hc, hl]

/-- Witness for C9 amended at a concrete store. -/
theorem C9_stats_untruncated_witness :
    cmd_thongke_reply 9 ⟨[⟨1, "a", "", 9, "2025-05-05T01:02:03.000001"⟩], 2⟩ =
      "Tổng UID / Total UIDs: 1\nLưu gần nhất / Last saved: 2025-05-05T01:02:03.000001" := by
  rw [C9_stats_untruncated 9 ⟨[⟨1, "a", "", 9, "2025-05-05T01:02:03.000001"⟩], 2⟩
    (by decide)]
  decide

/-- C3: chat-scope isolation.  A record `r2` belonging to a different chat
is never observed by `cmd_find`, `cmd_check`, `cmd_export`, or
`cmd_thongke` issued against chat `A` (their results are unchanged by its
presence and it never appears in returned rows), and it is never mutated
by `cmd_delete` or `cmd_deleteall` against chat `A` (it survives both). -/
theorem C3_chat_scoping (A : Int) (q uid : String) (db : DB) (r2 : UidRecord)
    (hA : r2.chat_id ≠ A) (hmem : r2 ∈ db.rows) :
    r2 ∉ cmd_find_rows A q db ∧
    r2 ∉ exportRows A db ∧
    r2 ∈ (cmd_delete_run A uid db).1.rows ∧
    r2 ∈ (deleteAllDb A db).rows ∧
    checkCount A uid ⟨db.rows ++ [r2], db.nextId⟩ = checkCount A uid db ∧
    cmd_find_rows A q ⟨db.rows ++ [r2], db.nextId⟩ = cmd_find_rows A q db ∧
    exportRows A ⟨db.rows ++ [r2], db.nextId⟩ = exportRows A db ∧
    cmd_thongke_reply A ⟨db.rows ++ [r2], db.nextId⟩ = cmd_thongke_reply A db ∧
    (cmd_delete_run A uid ⟨db.rows ++ [r2], db.nextId⟩).1.rows =
      (cmd_delete_run A uid db).1.rows ++ [r2] ∧
    (deleteAllDb A ⟨db.rows ++ [r2], db.nextId⟩).rows =
      (deleteAllDb A db).rows ++ [r2] := by
  have hb : (r2.chat_id == A) = false := by
    simp [hA]
  refine ⟨?_, ?_, ?_, ?_, ?_, ?_, ?_, ?_, ?_, ?_⟩
  · intro hin
    have hfil := List.take_subset 50 _ hin
    have := (List.mem_filter.mp hfil).2
    rw [hb] at this
    simp at this
  · intro hin
    have := (List.mem_filter.mp hin).2
    rw [hb] at this
    simp at this
  · exact List.mem_filter.mpr ⟨hmem, by simp [hb]⟩
  · exact List.mem_filter.mpr ⟨hmem, by simp [hb]⟩
  · simp [checkCount, List.countP_append, hb]
  · simp [cmd_find_rows, List.filter_append, hb]
  · simp [exportRows, List.filter_append, hb]
  · simp [cmd_thongke_reply, List.filter_append, hb]
  · simp [cmd_delete_run, List.filter_append, hb]
  · simp [deleteAllDb, List.filter_append, hb]

/-- Witness for C3: record of chat 2, operations against chat 1. -/
theorem C3_chat_scoping_witness :
    (⟨2, "v", "m", 2, "t2"⟩ : UidRecord) ∉
      cmd_find_rows 1 "v" ⟨[⟨1, "u", "n", 1, "t1"⟩, ⟨2, "v", "m", 2, "t2"⟩], 3⟩ ∧
    (⟨2, "v", "m", 2, "t2"⟩ : UidRecord) ∈
      (cmd_delete_run 1 "v"
        ⟨[⟨1, "u", "n", 1, "t1"⟩, ⟨2, "v", "m", 2, "t2"⟩], 3⟩).1.rows :=
  ⟨(C3_chat_scoping 1 "v" "v" ⟨[⟨1, "u", "n", 1, "t1"⟩, ⟨2, "v", "m", 2, "t2"⟩], 3⟩
      ⟨2, "v", "m", 2, "t2"⟩ (by decide) (by decide)).1,
   (C3_chat_scoping 1 "v" "v" ⟨[⟨1, "u", "n", 1, "t1"⟩, ⟨2, "v", "m", 2, "t2"⟩], 3⟩
      ⟨2, "v", "m", 2, "t2"⟩ (by decide) (by decide)).2.2.1⟩

/-- C4: `cmd_delete` removes exactly the records of the chat scope whose
uid equals the argument (all of them, and nothing else), and its reply
reports whether at least one row was removed; after the deletion the
existence check (`cmd_check`) for that uid in that chat counts zero rows
and replies "not found" — in particular this holds when the store
previously held N copies of that uid in the chat. -/
theorem C4_delete_by_uid (chat : Int) (uid : String) (db : DB) :
    (∀ r ∈ (cmd_delete_run chat uid db).1.rows, ¬(r.chat_id = chat ∧ r.uid = uid)) ∧
    (∀ r ∈ db.rows, ¬(r.chat_id = chat ∧ r.uid = uid) →
      r ∈ (cmd_delete_run chat uid db).1.rows) ∧
    ((cmd_delete_run chat uid db).2 = "Đã xóa / Deleted." ↔
      ∃ r ∈ db.rows, r.chat_id = chat ∧ r.uid = uid) ∧
    checkCount chat uid (cmd_delete_run chat uid db).1 = 0 ∧
    cmd_check_reply chat uid (cmd_delete_run chat uid db).1 = "Chưa có / Not found." := by
  have hzero : checkCount chat uid (cmd_delete_run chat uid db).1 = 0 := by
    simp only [checkCount, cmd_delete_run]
    rw [List.countP_eq_zero]
    intro r hr
    have := (List.mem_filter.mp hr).2
    simp only [Bool.not_eq_true'] at this
    simp [this]
  refine ⟨?_, ?_, ?_, hzero, ?_⟩
  · intro r hr hcontra
    have := (List.mem_filter.mp hr).2
    simp [hcontra.1, hcontra.2] at this
  · intro r hr hne
    refine List.mem_filter.mpr ⟨hr, ?_⟩
    have : (r.chat_id == chat && r.uid == uid) = false := by
      rcases not_and_or.mp hne with h | h <;> simp [h]
    simp [this]
  · by_cases hc : 0 < db.rows.countP (fun r => r.chat_id == chat && r.uid == uid)
    · have hex := List.countP_pos_iff.mp hc
      simp only [cmd_delete_run, if_pos hc]
      constructor
      · intro _
        obtain ⟨r, hrmem, hrp⟩ := hex
        exact ⟨r, hrmem, by simpa using hrp⟩
      · intro _
        trivial
    · simp only [cmd_delete_run, if_neg hc]
      constructor
      · intro habs
        exact absurd habs (by decide)
      · intro hex
        obtain ⟨r, hrmem, hrp⟩ := hex
        exact absurd (List.countP_pos_iff.mpr ⟨r, hrmem, by simp [hrp.1, hrp.2]⟩) hc
  · simp [cmd_check_reply, hzero]

/-- Witness for C4: two copies of uid `"x"` in chat 7, then delete and
check. -/
theorem C4_delete_by_uid_witness :
    checkCount 7 "x"
      (cmd_delete_run 7 "x"
        ⟨[⟨1, "x", "", 7, "t1"⟩, ⟨2, "x", "n", 7, "t2"⟩, ⟨3, "y", "", 7, "t3"⟩],
          4⟩).1 = 0 ∧
    cmd_check_reply 7 "x"
      (cmd_delete_run 7 "x"
        ⟨[⟨1, "x", "", 7, "t1"⟩, ⟨2, "x", "n", 7, "t2"⟩, ⟨3, "y", "", 7, "t3"⟩],
          4⟩).1 = "Chưa có / Not found." :=
  ⟨(C4_delete_by_uid 7 "x"
      ⟨[⟨1, "x", "", 7, "t1"⟩, ⟨2, "x", "n", 7, "t2"⟩, ⟨3, "y", "", 7, "t3"⟩],
        4⟩).2.2.2.1,
   (C4_delete_by_uid 7 "x"
      ⟨[⟨1, "x", "", 7, "t1"⟩, ⟨2, "x", "n", 7, "t2"⟩, ⟨3, "y", "", 7, "t3"⟩],
        4⟩).2.2.2.2⟩

end BotUid

